import Mathlib

/-!
Shallow embedding of `advanced_ai_agents/single_agent_apps/ai_deep_research_agent/
deep_research_openai.py`: the Firecrawl REST tool (`deep_research`), the two agent
configurations, and the orchestration (`run_research_process` plus the run-button
handler and its `can_run` gate).

The network and the agent runtime are modelled as oracle parameters; Python
exceptions that derive from `Exception` are modelled by the `PyExc` type carried
in an `Except` monad (control-flow exceptions such as `KeyboardInterrupt`, which
`except Exception` does not catch, are outside the model, as they are outside the
spec's fault taxonomy).
-/

namespace DeepResearch

/-- A JSON value, as produced by `resp.json()` (numbers restricted to integers,
which is all the payloads here use). -/
inductive JVal where
  | null : JVal
  | jbool : Bool → JVal
  | num : Int → JVal
  | str : String → JVal
  | arr : List JVal → JVal
  | obj : List (String × JVal) → JVal
deriving Repr

/-- The Python type name of a JSON value, as it appears in runtime error
messages (`json.loads` maps JSON types to these Python types). -/
def typeName : JVal → String
  | .null => "NoneType"
  | .jbool _ => "bool"
  | .num _ => "int"
  | .str _ => "str"
  | .arr _ => "list"
  | .obj _ => "dict"

/-- Lookup in a Python dict built by `json.loads`: with duplicate keys the last
occurrence wins, hence lookup on the reversed field list. -/
def jLookup (fields : List (String × JVal)) (k : String) : Option JVal :=
  fields.reverse.lookup k

/-- An HTTP response as seen through `requests`: status code, body text, and the
outcome of `resp.json()` (`.error m` means parsing raises with `str(e) = m`). -/
structure HttpResponse where
  status : Nat
  text : String
  jsonBody : Except String JVal

/-- A Python exception (derived from `Exception`).  `httpError` is
`requests.HTTPError`, which may or may not carry a response object (the
`getattr(e, "response", None)` check in the source); `other` is any other
exception.  The `String` argument is `str(e)`. -/
inductive PyExc where
  | httpError : Option HttpResponse → String → PyExc
  | other : String → PyExc

/-- `d.get(k, default)` in Python: works on dicts, raises `AttributeError` on
every other value produced by `json.loads`. -/
def dict_get (j : JVal) (k : String) (default : JVal) : Except PyExc JVal :=
  match j with
  | .obj fields => .ok ((jLookup fields k).getD default)
  | _ => .error (.other ("'" ++ typeName j ++ "' object has no attribute 'get'"))

/-- `len(x)` in Python on a value produced by `json.loads`: defined on lists,
strings and dicts; raises `TypeError` on the rest. -/
def pyLen (j : JVal) : Except PyExc Nat :=
  match j with
  | .str s => .ok s.length
  | .arr xs => .ok xs.length
  | .obj fs => .ok fs.length
  | _ => .error (.other ("object of type '" ++ typeName j ++ "' has no len()"))

/-- The single HTTP request `deep_research` can issue: method is always POST. -/
structure HttpRequest where
  url : String
  headers : List (String × String)
  body : List (String × JVal)
  timeoutSeconds : Nat
deriving Repr

/-- Outcome of `requests.post`: either it raises, or it returns a response. -/
inductive PostOutcome where
  | raises : PyExc → PostOutcome
  | returns : HttpResponse → PostOutcome

/-- `resp.raise_for_status()`: raises `requests.HTTPError` (carrying the
response) exactly for status codes in `[400, 600)`, as the `requests` library
does. -/
def raise_for_status (r : HttpResponse) : Except PyExc Unit :=
  if 400 ≤ r.status ∧ r.status < 600 then
    .error (.httpError (some r) ("HTTP error for status " ++ toString r.status))
  else
    .ok ()

/-- The result dict of `deep_research`: the `success` flag of the source's two
dict shapes is the variant tag.  Python puts arbitrary values in
`final_analysis` and `sources`, so they stay `JVal`. -/
inductive ResearchResult where
  | Success : JVal → Nat → JVal → ResearchResult
  | Failure : String → ResearchResult
deriving Repr

def ResearchResult.isSuccess : ResearchResult → Bool
  | .Success _ _ _ => true
  | .Failure _ => false

/-- `st.session_state.get("firecrawl_api_key") or os.getenv("FIRECRAWL_API_KEY", "")`:
Python `or` takes the left value when it is truthy (a non-empty string), else the
right; `getenv` with default yields `""` when the variable is unset. -/
def resolve_api_key (sessionKey : Option String) (envKey : Option String) : String :=
  match sessionKey with
  | some s => if s = "" then envKey.getD "" else s
  | none => envKey.getD ""

/-- The request `deep_research` builds: fixed URL, bearer header, camelCase
payload fields, 180-second timeout (lines 73-91 of the source). -/
def firecrawl_request (api_key query : String) (max_depth time_limit max_urls : Int) :
    HttpRequest :=
  { url := "https://api.firecrawl.dev/v1/deep-research"
    headers := [("Authorization", "Bearer " ++ api_key), ("Content-Type", "application/json")]
    body := [("query", JVal.str query), ("maxDepth", JVal.num max_depth),
             ("timeLimit", JVal.num time_limit), ("maxUrls", JVal.num max_urls)]
    timeoutSeconds := 180 }

/-- The `try` block of `deep_research` (lines 84-100): post, `raise_for_status`,
`resp.json().get("data", {})`, then the result-dict fields in the source's
evaluation order (`final_analysis`, then `len(...)` for `sources_count`, then
`sources`). -/
def deep_research_body (req : HttpRequest) (net : HttpRequest → PostOutcome) :
    Except PyExc ResearchResult :=
  match net req with
  | .raises e => .error e
  | .returns resp =>
    match raise_for_status resp with
    | .error e => .error e
    | .ok _ =>
      match resp.jsonBody with
      | .error m => .error (.other m)
      | .ok top =>
        match dict_get top "data" (.obj []) with
        | .error e => .error e
        | .ok data =>
          match dict_get data "finalAnalysis" (.str "") with
          | .error e => .error e
          | .ok fa =>
            match dict_get data "sources" (.arr []) with
            | .error e => .error e
            | .ok forLen =>
              match pyLen forLen with
              | .error e => .error e
              | .ok n =>
                match dict_get data "sources" (.arr []) with
                | .error e => .error e
                | .ok srcs => .ok (.Success fa n srcs)

/-- The two `except` handlers (lines 102-108): `requests.HTTPError` uses the
response body text when a response is attached, else `str(e)`; any other
exception uses `str(e)`. -/
def absorb : PyExc → ResearchResult
  | .httpError (some r) _ => .Failure r.text
  | .httpError none m => .Failure m
  | .other m => .Failure m

/-- `deep_research` (lines 57-108).  Returns the result together with the list
of HTTP requests issued (empty on the missing-key early return).  `net` is the
network oracle for the single `requests.post`. -/
def deep_research (sessionKey envKey : Option String) (query : String)
    (max_depth time_limit max_urls : Int) (net : HttpRequest → PostOutcome) :
    ResearchResult × List HttpRequest :=
  let api_key := resolve_api_key sessionKey envKey
  if api_key = "" then
    (.Failure "Missing FIRECRAWL_API_KEY", [])
  else
    let req := firecrawl_request api_key query max_depth time_limit max_urls
    match deep_research_body req net with
    | .ok r => (r, [req])
    | .error e => (absorb e, [req])

/-- An agent configuration as built by `Agent(...)`: name, instructions, and the
names of its bound tools. -/
structure Agent where
  name : String
  instructions : String
  tools : List String
deriving Repr

/-- `research_agent` (lines 114-124). -/
def research_agent : Agent :=
  { name := "research_agent"
    instructions :=
      "You are a research assistant that performs deep web research on any topic.\n" ++
      "1) Call the deep_research tool with: max_depth=3, time_limit=180, max_urls=10.\n" ++
      "2) Organize findings into a structured report.\n" ++
      "3) Include citations from the provided sources.\n" ++
      "4) Highlight key insights."
    tools := ["deep_research"] }

/-- `elaboration_agent` (lines 126-134): no tools. -/
def elaboration_agent : Agent :=
  { name := "elaboration_agent"
    instructions :=
      "You enhance research reports:\n" ++
      "- Add explanations, examples, and case studies.\n" ++
      "- Expand key points with context and implications.\n" ++
      "- Maintain structure and rigor, no fluff."
    tools := [] }

/-- An event on the Streamlit progress/output sink, in emission order. -/
inductive SinkEvent where
  | spinner : String → SinkEvent
  | showInitial : String → SinkEvent
  | warning : String → SinkEvent
  | errorMsg : String → SinkEvent
deriving Repr

/-- The agent runtime oracle for `Runner.run`: given an agent and an input,
either return its final output text or raise a runtime fault with `str(e)`. -/
def AgentRuntime : Type := Agent → String → Except String String

/-- The elaboration input f-string (lines 149-156), character for character. -/
def elaboration_input (topic initial_report : String) : String :=
  "\nRESEARCH TOPIC: " ++ topic ++ "\n\nINITIAL RESEARCH REPORT:\n" ++ initial_report ++
  "\n\nEnhance this report with additional detail, examples, and deeper insights. Keep it factual and structured.\n"

/-- `run_research_process` (lines 140-160).  Besides the outcome (`.error` when
a `Runner.run` call raises and the fault propagates to the caller), it returns
the list of agent invocations `(agent name, input)` in order, and the sink
events emitted before the fault or the return. -/
def run_research_process (runner : AgentRuntime) (topic : String) :
    Except String String × List (String × String) × List SinkEvent :=
  match runner research_agent topic with
  | .error e =>
      (.error e, [(research_agent.name, topic)],
       [.spinner "Conducting initial research..."])
  | .ok initial_report =>
    let ei := elaboration_input topic initial_report
    match runner elaboration_agent ei with
    | .error e =>
        (.error e, [(research_agent.name, topic), (elaboration_agent.name, ei)],
         [.spinner "Conducting initial research...", .showInitial initial_report,
          .spinner "Enhancing the report with additional information..."])
    | .ok enhanced_report =>
        (.ok enhanced_report, [(research_agent.name, topic), (elaboration_agent.name, ei)],
         [.spinner "Conducting initial research...", .showInitial initial_report,
          .spinner "Enhancing the report with additional information..."])

/-- `can_run` (line 166): Python truthiness of the three strings. -/
def can_run (openai_key firecrawl_key topic : String) : Bool :=
  !(openai_key == "") && !(firecrawl_key == "") && !(topic == "")

/-- Outcome of a press of the run button. -/
inductive RunOutcome where
  | warnedMissingKeys : RunOutcome
  | warnedMissingTopic : RunOutcome
  | reported : String → RunOutcome
  | errored : String → RunOutcome
deriving Repr

/-- The run-button handler body (lines 167-185): re-validate the keys and the
topic, run the pipeline, render the enhanced report, and catch any exception
into an error message.  Returns the outcome and the agent invocations made. -/
def run_button_handler (openai_key firecrawl_key topic : String)
    (runner : AgentRuntime) : RunOutcome × List (String × String) :=
  if openai_key = "" ∨ firecrawl_key = "" then
    (.warnedMissingKeys, [])
  else if topic = "" then
    (.warnedMissingTopic, [])
  else
    match run_research_process runner topic with
    | (.ok enhanced, inv, _) => (.reported enhanced, inv)
    | (.error e, inv, _) => (.errored ("An error occurred: " ++ e), inv)

/-- The orchestrator states of spec section 4.4. -/
inductive OrchState where
  | Idle : OrchState
  | Researching : OrchState
  | Elaborating : OrchState
  | Done : OrchState
  | Failed : OrchState
deriving Repr, DecidableEq

/-- The state in which a button press leaves the orchestrator: validation
failures never leave `Idle`, a caught runtime fault ends in `Failed`, a rendered
report in `Done`. -/
def final_state : RunOutcome → OrchState
  | .warnedMissingKeys => .Idle
  | .warnedMissingTopic => .Idle
  | .reported _ => .Done
  | .errored _ => .Failed

/-- The fixed research-request policy of `ResearchRequest` (spec section 3). -/
structure ResearchRequest where
  query : String
  max_depth : Int
  time_limit : Int
  max_urls : Int
deriving Repr

/-- Modelled from the spec: the Research Agent's tool-calling behavior is
executed by the language-model runtime and is present in the repository only as
the instruction text of `research_agent`; per spec section 4.2 the agent calls
the research tool exactly once, with the fixed policy `max_depth=3,
time_limit=180, max_urls=10`, on the given topic. -/
def research_agent_tool_calls (topic : String) : List ResearchRequest :=
  [{ query := topic, max_depth := 3, time_limit := 180, max_urls := 10 }]

/-! ## Theorems -/

/-- C1: `deep_research` is total with respect to faults: for every input and
every outcome of the network call its value is a well-formed `ResearchResult`
(`Success` or `Failure`); every exception raised inside the `try` block
surfaces through the handlers as the `Failure` value `absorb e`; and for every
non-HTTP exception the message is `str(e)`. -/
theorem deep_research_absorbs_all_faults :
    (∀ sk ek q d t u net,
       (∃ fa n s, (deep_research sk ek q d t u net).1 = .Success fa n s) ∨
       (∃ m, (deep_research sk ek q d t u net).1 = .Failure m)) ∧
    (∀ e, ∃ m, absorb e = .Failure m) ∧
    (∀ sk ek q d t u net e, resolve_api_key sk ek ≠ "" →
       deep_research_body (firecrawl_request (resolve_api_key sk ek) q d t u) net = .error e →
       (deep_research sk ek q d t u net).1 = absorb e) ∧
    (∀ m, absorb (.other m) = .Failure m) := by
  refine ⟨?_, ?_, ?_, fun m => rfl⟩
  · intro sk ek q d t u net
    cases h : (deep_research sk ek q d t u net).1 with
    | Success fa n s => exact .inl ⟨fa, n, s, rfl⟩
    | Failure m => exact .inr ⟨m, rfl⟩
  · intro e
    cases e with
    | httpError r m => cases r with
      | none => exact ⟨m, rfl⟩
      | some resp => exact ⟨resp.text, rfl⟩
    | other m => exact ⟨m, rfl⟩
  · intro sk ek q d t u net e hkey hbody
    simp [deep_research, hkey, hbody]

/-- Witness for C1 at a concrete network fault. -/
theorem deep_research_absorbs_all_faults_witness :
    (deep_research (some "k") none "q" 3 180 10
        (fun _ => PostOutcome.raises (.other "connection reset"))).1
      = absorb (.other "connection reset") :=
  deep_research_absorbs_all_faults.2.2.1 (some "k") none "q" 3 180 10
    (fun _ => PostOutcome.raises (.other "connection reset")) (.other "connection reset")
    (by decide) rfl

/-- C2: the research-service key is the session value when truthy, else the
`FIRECRAWL_API_KEY` environment value (with `""` when unset); when the resolved
key is empty, `deep_research` returns `Failure "Missing FIRECRAWL_API_KEY"` and
issues no HTTP request. -/
theorem deep_research_key_resolution :
    (∀ s ek, resolve_api_key (some s) ek = if s = "" then ek.getD "" else s) ∧
    (∀ ek, resolve_api_key none ek = ek.getD "") ∧
    (∀ sk ek q d t u net, resolve_api_key sk ek = "" →
       deep_research sk ek q d t u net = (.Failure "Missing FIRECRAWL_API_KEY", [])) := by
  refine ⟨fun s ek => rfl, fun ek => rfl, ?_⟩
  intro sk ek q d t u net h
  simp [deep_research, h]

/-- Witness for C2: no session key and no environment variable. -/
theorem deep_research_key_resolution_witness :
    deep_research none none "q" 3 180 10 (fun _ => PostOutcome.raises (.other "unreachable"))
      = (.Failure "Missing FIRECRAWL_API_KEY", []) :=
  deep_research_key_resolution.2.2 none none "q" 3 180 10
    (fun _ => PostOutcome.raises (.other "unreachable")) rfl

/-- C3 counterexample: an HTTP 400 response with an empty body yields
`Failure ""` — the failure message is NOT non-empty as the claim states. -/
theorem deep_research_http_error_empty_message :
    (deep_research (some "k") none "q" 3 180 10
        (fun _ => PostOutcome.returns { status := 400, text := "",
                                        jsonBody := .error "no body" })).1
      = .Failure "" := by
  rfl

/-- C3 (amended): for every HTTP response with status in `[400, 600)` (the
range for which `raise_for_status` raises), `deep_research` returns a `Failure`
whose message is the response body text — which may be empty — and never a
`Success`; when an `HTTPError` arrives without a response attached, the message
is the exception's string form. -/
theorem deep_research_http_error_is_failure :
    (∀ sk ek q d t u net resp, resolve_api_key sk ek ≠ "" →
       net (firecrawl_request (resolve_api_key sk ek) q d t u) = .returns resp →
       400 ≤ resp.status → resp.status < 600 →
       (deep_research sk ek q d t u net).1 = .Failure resp.text ∧
       (deep_research sk ek q d t u net).1.isSuccess = false) ∧
    (∀ sk ek q d t u net m, resolve_api_key sk ek ≠ "" →
       net (firecrawl_request (resolve_api_key sk ek) q d t u) = .raises (.httpError none m) →
       (deep_research sk ek q d t u net).1 = .Failure m) := by
  constructor
  · intro sk ek q d t u net resp hkey hnet h4 h6
    have hc : 400 ≤ resp.status ∧ resp.status < 600 := ⟨h4, h6⟩
    simp [deep_research, hkey, deep_research_body, hnet, raise_for_status, hc, absorb,
      ResearchResult.isSuccess]
  · intro sk ek q d t u net m hkey hnet
    simp [deep_research, hkey, deep_research_body, hnet, absorb]

/-- Witness for C3 (amended) on a 500 response and on a response-less
`HTTPError`. -/
theorem deep_research_http_error_is_failure_witness :
    ((deep_research (some "k") none "q" 3 180 10
        (fun _ => PostOutcome.returns { status := 500, text := "server exploded",
                                        jsonBody := .error "x" })).1
        = .Failure "server exploded" ∧
     (deep_research (some "k") none "q" 3 180 10
        (fun _ => PostOutcome.returns { status := 500, text := "server exploded",
                                        jsonBody := .error "x" })).1.isSuccess = false) ∧
    (deep_research (some "k") none "q" 3 180 10
        (fun _ => PostOutcome.raises (.httpError none "bare http error"))).1
      = .Failure "bare http error" :=
  ⟨deep_research_http_error_is_failure.1 (some "k") none "q" 3 180 10
      (fun _ => PostOutcome.returns { status := 500, text := "server exploded",
                                      jsonBody := .error "x" })
      { status := 500, text := "server exploded", jsonBody := .error "x" }
      (by decide) rfl (by decide) (by decide),
   deep_research_http_error_is_failure.2 (some "k") none "q" 3 180 10
      (fun _ => PostOutcome.raises (.httpError none "bare http error")) "bare http error"
      (by decide) rfl⟩

/-- C4 counterexample: a 2xx response with the well-formed JSON body whose
`data` member is the number `5` (not an object) does NOT yield a `Success`:
`data.get(...)` raises `AttributeError`, which the generic handler turns into a
`Failure` — refuting the claim that a malformed `data` object is treated as
having absent nested fields. -/
theorem deep_research_malformed_data_is_failure :
    (deep_research (some "k") none "q" 3 180 10
        (fun _ => PostOutcome.returns { status := 200, text := "ignored",
                                        jsonBody := .ok (.obj [("data", .num 5)]) })).1
      = .Failure "'int' object has no attribute 'get'" := by
  rfl

/-- C4 (amended): for every 2xx response whose body is well-formed JSON with an
object at top level, whose `data` member — when present — is an object, and
whose `data.sources` — when present — is a value with a Python length,
`deep_research` returns `Success` with `final_analysis = data.finalAnalysis`
(or `""` when absent), `sources = data.sources` (or the empty sequence when
absent) and `sources_count` equal to the length of `sources`; an absent `data`
key is treated as the empty object, while a non-object `data` (or top level, or
a length-less `sources`) raises inside the `try` block and is caught into a
`Failure` rather than being treated as absent.  Exactly one variant is
populated (`Success` here, and the result never equals any `Failure`). -/
theorem deep_research_success_shape
    (sk ek : Option String) (q : String) (d t u : Int) (net : HttpRequest → PostOutcome)
    (resp : HttpResponse) (topFields dataFields : List (String × JVal)) (n : Nat)
    (hkey : resolve_api_key sk ek ≠ "")
    (hnet : net (firecrawl_request (resolve_api_key sk ek) q d t u) = .returns resp)
    (h2a : 200 ≤ resp.status) (h2b : resp.status < 300)
    (hjson : resp.jsonBody = .ok (.obj topFields))
    (hdata : (jLookup topFields "data").getD (.obj []) = .obj dataFields)
    (hlen : pyLen ((jLookup dataFields "sources").getD (.arr [])) = .ok n) :
    (deep_research sk ek q d t u net).1 =
      .Success ((jLookup dataFields "finalAnalysis").getD (.str "")) n
        ((jLookup dataFields "sources").getD (.arr [])) ∧
    ∀ m, (deep_research sk ek q d t u net).1 ≠ .Failure m := by
  have hc : ¬(400 ≤ resp.status ∧ resp.status < 600) := by omega
  constructor
  · simp [deep_research, hkey, deep_research_body, hnet, raise_for_status, hc, hjson,
      dict_get, hdata, hlen]
  · intro m
    simp [deep_research, hkey, deep_research_body, hnet, raise_for_status, hc, hjson,
      dict_get, hdata, hlen]

/-- Witness for C4 (amended): body with `finalAnalysis = "X"` and two
sources. -/
theorem deep_research_success_shape_witness :
    (deep_research (some "k") none "q" 3 180 10
        (fun _ => PostOutcome.returns { status := 200, text := "t",
                                        jsonBody := .ok (.obj [("data", .obj
                                          [("finalAnalysis", .str "X"),
                                           ("sources", .arr [.obj [("url", .str "a")],
                                                             .obj [("url", .str "b")]])])]) })).1
      = .Success ((jLookup [("finalAnalysis", JVal.str "X"),
                            ("sources", JVal.arr [.obj [("url", .str "a")],
                                                  .obj [("url", .str "b")]])] "finalAnalysis").getD
                    (.str "")) 2
          ((jLookup [("finalAnalysis", JVal.str "X"),
                     ("sources", JVal.arr [.obj [("url", .str "a")],
                                           .obj [("url", .str "b")]])] "sources").getD (.arr [])) ∧
    ∀ m, (deep_research (some "k") none "q" 3 180 10
        (fun _ => PostOutcome.returns { status := 200, text := "t",
                                        jsonBody := .ok (.obj [("data", .obj
                                          [("finalAnalysis", .str "X"),
                                           ("sources", .arr [.obj [("url", .str "a")],
                                                             .obj [("url", .str "b")]])])]) })).1
      ≠ .Failure m :=
  deep_research_success_shape (some "k") none "q" 3 180 10
    (fun _ => PostOutcome.returns { status := 200, text := "t",
                                    jsonBody := .ok (.obj [("data", .obj
                                      [("finalAnalysis", .str "X"),
                                       ("sources", .arr [.obj [("url", .str "a")],
                                                         .obj [("url", .str "b")]])])]) })
    { status := 200, text := "t",
      jsonBody := .ok (.obj [("data", .obj
        [("finalAnalysis", .str "X"),
         ("sources", .arr [.obj [("url", .str "a")], .obj [("url", .str "b")]])])]) }
    [("data", .obj [("finalAnalysis", .str "X"),
                    ("sources", .arr [.obj [("url", .str "a")], .obj [("url", .str "b")]])])]
    [("finalAnalysis", .str "X"),
     ("sources", .arr [.obj [("url", .str "a")], .obj [("url", .str "b")]])] 2
    (by decide) rfl (by decide) (by decide) rfl rfl rfl

/-- C5: every network attempt of `deep_research` is a single POST to the fixed
Firecrawl endpoint; at most one request is ever issued (no retry); and the
request carries the Bearer authorization header, the JSON content type, exactly
the four camelCase-renamed payload fields taken from the snake_case inputs, and
the fixed 180-second timeout. -/
theorem deep_research_single_fixed_request :
    (∀ sk ek q d t u net, resolve_api_key sk ek ≠ "" →
       (deep_research sk ek q d t u net).2
         = [firecrawl_request (resolve_api_key sk ek) q d t u]) ∧
    (∀ sk ek q d t u net, (deep_research sk ek q d t u net).2.length ≤ 1) ∧
    (∀ k q d t u,
       (firecrawl_request k q d t u).url = "https://api.firecrawl.dev/v1/deep-research" ∧
       (firecrawl_request k q d t u).headers
         = [("Authorization", "Bearer " ++ k), ("Content-Type", "application/json")] ∧
       (firecrawl_request k q d t u).body
         = [("query", .str q), ("maxDepth", .num d), ("timeLimit", .num t), ("maxUrls", .num u)] ∧
       (firecrawl_request k q d t u).timeoutSeconds = 180) := by
  refine ⟨?_, ?_, fun k q d t u => ⟨rfl, rfl, rfl, rfl⟩⟩
  · intro sk ek q d t u net h
    simp only [deep_research, if_neg h]
    cases deep_research_body (firecrawl_request (resolve_api_key sk ek) q d t u) net <;> simp
  · intro sk ek q d t u net
    by_cases h : resolve_api_key sk ek = ""
    · simp [deep_research, h]
    · simp only [deep_research, if_neg h]
      cases deep_research_body (firecrawl_request (resolve_api_key sk ek) q d t u) net <;> simp

/-- Witness for C5 with a resolvable key. -/
theorem deep_research_single_fixed_request_witness :
    (deep_research (some "k") none "q" 3 180 10
        (fun _ => PostOutcome.raises (.other "down"))).2
      = [firecrawl_request (resolve_api_key (some "k") none) "q" 3 180 10] :=
  deep_research_single_fixed_request.1 (some "k") none "q" 3 180 10
    (fun _ => PostOutcome.raises (.other "down")) (by decide)

/-- C6: when the model-provider key, the research-service key or the topic is
missing, the run button is disabled (`can_run = false`) and even a press makes
no agent invocation (hence no network call): the handler only emits a warning,
leaving the orchestrator `Idle`. -/
theorem orchestrator_validation_gate
    (openai firecrawl topic : String) (runner : AgentRuntime)
    (h : openai = "" ∨ firecrawl = "" ∨ topic = "") :
    can_run openai firecrawl topic = false ∧
    (run_button_handler openai firecrawl topic runner).2 = [] ∧
    final_state (run_button_handler openai firecrawl topic runner).1 = .Idle ∧
    ((run_button_handler openai firecrawl topic runner).1 = .warnedMissingKeys ∨
     (run_button_handler openai firecrawl topic runner).1 = .warnedMissingTopic) := by
  by_cases hk : openai = "" ∨ firecrawl = ""
  · have h2 : run_button_handler openai firecrawl topic runner = (.warnedMissingKeys, []) := by
      simp [run_button_handler, hk]
    refine ⟨?_, by rw [h2], by rw [h2]; rfl, .inl (by rw [h2])⟩
    rcases hk with h1 | h1 <;> simp [can_run, h1]
  · have ht : topic = "" := by tauto
    have h2 : run_button_handler openai firecrawl topic runner = (.warnedMissingTopic, []) := by
      simp [run_button_handler, hk, ht]
    exact ⟨by simp [can_run, ht], by rw [h2], by rw [h2]; rfl, .inr (by rw [h2])⟩

/-- Witness for C6: missing model-provider key. -/
theorem orchestrator_validation_gate_witness :
    can_run "" "fk" "topic" = false ∧
    (run_button_handler "" "fk" "topic" (fun _ _ => Except.ok "r")).2 = [] ∧
    final_state (run_button_handler "" "fk" "topic" (fun _ _ => Except.ok "r")).1 = .Idle ∧
    ((run_button_handler "" "fk" "topic" (fun _ _ => Except.ok "r")).1 = .warnedMissingKeys ∨
     (run_button_handler "" "fk" "topic" (fun _ _ => Except.ok "r")).1 = .warnedMissingTopic) :=
  orchestrator_validation_gate "" "fk" "topic" (fun _ _ => Except.ok "r") (.inl rfl)

/-- C7: when both agent invocations complete, the orchestrator runs the
Research Agent on the topic, exposes the initial report to the sink before the
elaboration spinner, invokes the Elaboration Agent exactly once on the single
input concatenating the topic and the initial report, and returns the
Elaboration Agent's output. -/
theorem orchestrator_pipeline :
    (∀ runner topic initial, runner research_agent topic = .ok initial →
       (run_research_process runner topic).2.1
         = [(research_agent.name, topic),
            (elaboration_agent.name, elaboration_input topic initial)] ∧
       (run_research_process runner topic).2.2
         = [.spinner "Conducting initial research...", .showInitial initial,
            .spinner "Enhancing the report with additional information..."]) ∧
    (∀ runner topic initial enhanced,
       runner research_agent topic = .ok initial →
       runner elaboration_agent (elaboration_input topic initial) = .ok enhanced →
       (run_research_process runner topic).1 = .ok enhanced) ∧
    (∀ topic initial,
       ∃ a b c, elaboration_input topic initial = a ++ topic ++ b ++ initial ++ c) := by
  refine ⟨?_, ?_, ?_⟩
  · intro runner topic initial hr
    cases he : runner elaboration_agent (elaboration_input topic initial) with
    | ok enhanced => simp [run_research_process, hr, he]
    | error e => simp [run_research_process, hr, he]
  · intro runner topic initial enhanced hr he
    simp [run_research_process, hr, he]
  · intro topic initial
    exact ⟨"\nRESEARCH TOPIC: ", "\n\nINITIAL RESEARCH REPORT:\n",
      "\n\nEnhance this report with additional detail, examples, and deeper insights. Keep it factual and structured.\n",
      by simp [elaboration_input, String.append_assoc]⟩

/-- Witness for C7 with a concrete two-stage runner. -/
theorem orchestrator_pipeline_witness :
    ((run_research_process
         (fun a s => if a.name = "research_agent" then .ok "r0" else .ok ("E:" ++ s)) "topic").2.1
       = [(research_agent.name, "topic"),
          (elaboration_agent.name, elaboration_input "topic" "r0")] ∧
     (run_research_process
         (fun a s => if a.name = "research_agent" then .ok "r0" else .ok ("E:" ++ s)) "topic").2.2
       = [.spinner "Conducting initial research...", .showInitial "r0",
          .spinner "Enhancing the report with additional information..."]) ∧
    (run_research_process
        (fun a s => if a.name = "research_agent" then .ok "r0" else .ok ("E:" ++ s)) "topic").1
      = .ok ("E:" ++ elaboration_input "topic" "r0") :=
  ⟨orchestrator_pipeline.1
      (fun a s => if a.name = "research_agent" then .ok "r0" else .ok ("E:" ++ s))
      "topic" "r0" rfl,
   orchestrator_pipeline.2.1
      (fun a s => if a.name = "research_agent" then .ok "r0" else .ok ("E:" ++ s))
      "topic" "r0" ("E:" ++ elaboration_input "topic" "r0") rfl rfl⟩

/-- C8: a fault raised by the agent runtime during a started run is caught by
the handler, reported as an error message carrying the fault's string form, and
the run ends `Failed` with no report returned. -/
theorem orchestrator_runtime_fault
    (openai firecrawl topic : String) (runner : AgentRuntime) (e : String)
    (ho : openai ≠ "") (hf : firecrawl ≠ "") (ht : topic ≠ "")
    (hrun : (run_research_process runner topic).1 = .error e) :
    (run_button_handler openai firecrawl topic runner).1
      = .errored ("An error occurred: " ++ e) ∧
    final_state (run_button_handler openai firecrawl topic runner).1 = .Failed ∧
    ∀ r, (run_button_handler openai firecrawl topic runner).1 ≠ .reported r := by
  have hk : ¬(openai = "" ∨ firecrawl = "") := by tauto
  rcases hview : run_research_process runner topic with ⟨res, inv, sink⟩
  rw [hview] at hrun
  simp only at hrun
  subst hrun
  have h2 : run_button_handler openai firecrawl topic runner
      = (.errored ("An error occurred: " ++ e), inv) := by
    simp [run_button_handler, hk, ht, hview]
  refine ⟨by rw [h2], by rw [h2]; rfl, ?_⟩
  intro r
  rw [h2]
  simp

/-- Witness for C8 with a runner that always faults. -/
theorem orchestrator_runtime_fault_witness :
    (run_button_handler "ok" "fk" "topic" (fun _ _ => Except.error "provider outage")).1
      = .errored ("An error occurred: " ++ "provider outage") ∧
    final_state
        (run_button_handler "ok" "fk" "topic" (fun _ _ => Except.error "provider outage")).1
      = .Failed ∧
    ∀ r, (run_button_handler "ok" "fk" "topic" (fun _ _ => Except.error "provider outage")).1
      ≠ .reported r :=
  orchestrator_runtime_fault "ok" "fk" "topic" (fun _ _ => Except.error "provider outage")
    "provider outage" (by decide) (by decide) (by decide) rfl

/-- C9: every research-tool invocation of the Research Agent uses exactly the
fixed policy `max_depth=3, time_limit=180, max_urls=10` regardless of topic,
there is exactly one such invocation per run, and the agent's only bound tool
is `deep_research`; no user input reaches these values. -/
theorem research_agent_fixed_policy :
    (∀ topic r, r ∈ research_agent_tool_calls topic →
       r.max_depth = 3 ∧ r.time_limit = 180 ∧ r.max_urls = 10 ∧ r.query = topic) ∧
    (∀ topic, (research_agent_tool_calls topic).length = 1) ∧
    research_agent.tools = ["deep_research"] := by
  refine ⟨?_, fun topic => rfl, rfl⟩
  intro topic r hr
  simp [research_agent_tool_calls] at hr
  subst hr
  exact ⟨rfl, rfl, rfl, rfl⟩

/-- Witness for C9 on a concrete topic. -/
theorem research_agent_fixed_policy_witness :
    (⟨"quantum computing", 3, 180, 10⟩ : ResearchRequest).max_depth = 3 ∧
    (⟨"quantum computing", 3, 180, 10⟩ : ResearchRequest).time_limit = 180 ∧
    (⟨"quantum computing", 3, 180, 10⟩ : ResearchRequest).max_urls = 10 ∧
    (⟨"quantum computing", 3, 180, 10⟩ : ResearchRequest).query = "quantum computing" :=
  research_agent_fixed_policy.1 "quantum computing" ⟨"quantum computing", 3, 180, 10⟩
    (by simp [research_agent_tool_calls])

/-- C10: key presence is Python truthiness: with an empty session key and a
non-empty `FIRECRAWL_API_KEY` environment value, `deep_research` resolves the
environment value and proceeds to the network call (one request issued, not the
missing-key failure); any non-empty session key — whitespace included — counts
as present and is used as-is. -/
theorem firecrawl_key_truthiness :
    (∀ e q d t u net, e ≠ "" →
       resolve_api_key (some "") (some e) = e ∧
       (deep_research (some "") (some e) q d t u net).2 = [firecrawl_request e q d t u]) ∧
    (∀ ek q d t u net w, w ≠ "" →
       resolve_api_key (some w) ek = w ∧
       (deep_research (some w) ek q d t u net).2 = [firecrawl_request w q d t u]) := by
  constructor
  · intro e q d t u net he
    have h1 : resolve_api_key (some "") (some e) = e := rfl
    refine ⟨h1, ?_⟩
    simp only [deep_research, h1, if_neg he]
    cases deep_research_body (firecrawl_request e q d t u) net <;> simp
  · intro ek q d t u net w hw
    have h1 : resolve_api_key (some w) ek = w := by simp [resolve_api_key, hw]
    refine ⟨h1, ?_⟩
    simp only [deep_research, h1, if_neg hw]
    cases deep_research_body (firecrawl_request w q d t u) net <;> simp

/-- Witness for C10: empty session key with environment fallback, and a
whitespace-only session key. -/
theorem firecrawl_key_truthiness_witness :
    (resolve_api_key (some "") (some "envkey") = "envkey" ∧
     (deep_research (some "") (some "envkey") "q" 3 180 10
        (fun _ => PostOutcome.raises (.other "down"))).2
       = [firecrawl_request "envkey" "q" 3 180 10]) ∧
    (resolve_api_key (some " ") none = " " ∧
     (deep_research (some " ") none "q" 3 180 10
        (fun _ => PostOutcome.raises (.other "down"))).2
       = [firecrawl_request " " "q" 3 180 10]) :=
  ⟨firecrawl_key_truthiness.1 "envkey" "q" 3 180 10
      (fun _ => PostOutcome.raises (.other "down")) (by decide),
   firecrawl_key_truthiness.2 none "q" 3 180 10
      (fun _ => PostOutcome.raises (.other "down")) " " (by decide)⟩

end DeepResearch
